import Mathlib

/-!
Shallow embedding of the SPARKCHAIN alert system (`scripts/alert_system.py`).

Python dictionaries become structures whose optional keys are `Option` fields;
JSON numbers are modelled exactly as rationals; a Python exception raised
during evaluation is the `none` case of an `Option` result.  Timestamps
(`time.time()` / `datetime.now()`) are passed in as explicit `Nat` parameters.
The on-disk files `alerts.json` and `alert_log.json` are the `saved` and
`alert_log` components of the system state; `save_alerts` copies the in-memory
list into `saved`.
-/

/-- A JSON scalar held in an alert's `value` field: either a value on which
Python's `float()` succeeds (int, float, numeric string), carried exactly as a
rational, or a non-numeric value on which `float()` raises `ValueError`. -/
inductive PyVal where
  | num (q : ℚ)
  | nonNumeric (s : String)
deriving DecidableEq, Repr

/-- Python's `float(v)`: `none` models the raised `ValueError`. -/
def pyFloat : PyVal → Option ℚ
  | PyVal.num q => some q
  | PyVal.nonNumeric _ => none

/-- Python's `str.upper()`: uppercase the string character by character. -/
def pyUpper (s : String) : String :=
  ⟨s.data.map Char.toUpper⟩

/-- One alert record (a dict in the source).  Keys that the code reads with
`.get` and that need not be present are `Option` fields. -/
structure Alert where
  id : String
  created : Nat
  active : Bool
  triggered : Bool
  triggered_at : Option Nat
  type_ : Option String
  symbol : Option String
  condition : Option String
  value : Option PyVal
  last_price : Option ℚ
  avg_volume : Option ℚ
  last_change : Option ℚ
  last_sentiment : Option ℚ
deriving DecidableEq, Repr

/-- One entry of `market_data["trending_coins"]`.  `symbol` is accessed with
`c["symbol"]` (mandatory); the metric fields are read with `.get(_, 0)`. -/
structure Coin where
  symbol : String
  price : Option ℚ
  volume24h : Option ℚ
  change24h : Option ℚ
deriving DecidableEq, Repr

/-- The market snapshot handed to `check_alerts`; `trending_coins` is read
with `.get("trending_coins", [])`, so an absent key is the empty list. -/
structure MarketData where
  trending_coins : List Coin
deriving DecidableEq, Repr

/-- Contents of `sentiment.json`; `overall_sentiment` is read with
`.get("overall_sentiment", 50)`. -/
structure SentimentData where
  overall_sentiment : Option ℚ
deriving DecidableEq, Repr

/-- `AlertSystem.evaluate_price_alert`.  The result is `none` when
`float(alert.get("value", 0))` raises. -/
def evaluate_price_alert (alert : Alert) (market_data : MarketData) :
    Option (Bool × Alert) :=
  let symbol := pyUpper (alert.symbol.getD "")
  let condition := alert.condition.getD "above"
  (pyFloat (alert.value.getD (PyVal.num 0))).bind fun threshold =>
    match market_data.trending_coins.find? (fun c => c.symbol == symbol) with
    | none => some (false, alert)
    | some coin =>
      let current_price := coin.price.getD 0
      if condition = "above" then
        some (decide (current_price > threshold), alert)
      else if condition = "below" then
        some (decide (current_price < threshold), alert)
      else if condition = "crosses_above" then
        let previous_price := alert.last_price.getD current_price
        some (decide (previous_price ≤ threshold ∧ threshold < current_price),
          { alert with last_price := some current_price })
      else if condition = "crosses_below" then
        let previous_price := alert.last_price.getD current_price
        some (decide (previous_price ≥ threshold ∧ threshold > current_price),
          { alert with last_price := some current_price })
      else
        some (false, alert)

/-- `AlertSystem.evaluate_volume_alert`. -/
def evaluate_volume_alert (alert : Alert) (market_data : MarketData) :
    Option (Bool × Alert) :=
  let symbol := pyUpper (alert.symbol.getD "")
  (pyFloat (alert.value.getD (PyVal.num 0))).bind fun threshold =>
    match market_data.trending_coins.find? (fun c => c.symbol == symbol) with
    | none => some (false, alert)
    | some coin =>
      let current_volume := coin.volume24h.getD 0
      let avg_volume := alert.avg_volume.getD current_volume
      if current_volume > avg_volume * (threshold / 100) then
        some (true,
          { alert with
              avg_volume := some (avg_volume * (7 / 10) + current_volume * (3 / 10)) })
      else
        some (false, alert)

/-- `AlertSystem.evaluate_change_alert`. -/
def evaluate_change_alert (alert : Alert) (market_data : MarketData) :
    Option (Bool × Alert) :=
  let symbol := pyUpper (alert.symbol.getD "")
  let condition := alert.condition.getD "increase"
  (pyFloat (alert.value.getD (PyVal.num 0))).bind fun threshold =>
    match market_data.trending_coins.find? (fun c => c.symbol == symbol) with
    | none => some (false, alert)
    | some coin =>
      let change := coin.change24h.getD 0
      if condition = "increase" then
        some (decide (change > threshold), alert)
      else if condition = "decrease" then
        some (decide (change < -threshold), alert)
      else if condition = "volatility" then
        some (decide (|change| > threshold), alert)
      else
        some (false, alert)

/-- `AlertSystem.evaluate_sentiment_alert`.  The whole body is wrapped in
`try/except: return False`, so a conversion failure is swallowed and the
function never raises; an absent `sentiment.json` (`sentiment = none`) also
yields `False`.  The alert is never mutated. -/
def evaluate_sentiment_alert (alert : Alert) (sentiment : Option SentimentData) :
    Bool × Alert :=
  match sentiment with
  | none => (false, alert)
  | some sentiment_data =>
    match pyFloat (alert.value.getD (PyVal.num 50)) with
    | none => (false, alert)
    | some threshold =>
      let current_sentiment := sentiment_data.overall_sentiment.getD 50
      if alert.condition = some "above" then
        (decide (current_sentiment > threshold), alert)
      else if alert.condition = some "below" then
        (decide (current_sentiment < threshold), alert)
      else
        (false, alert)

/-- `AlertSystem.evaluate_alert`: dispatch on `alert.get("type", "price")`. -/
def evaluate_alert (alert : Alert) (market_data : MarketData)
    (sentiment : Option SentimentData) : Option (Bool × Alert) :=
  let alert_type := alert.type_.getD "price"
  if alert_type = "price" then evaluate_price_alert alert market_data
  else if alert_type = "volume" then evaluate_volume_alert alert market_data
  else if alert_type = "change" then evaluate_change_alert alert market_data
  else if alert_type = "sentiment" then some (evaluate_sentiment_alert alert sentiment)
  else some (false, alert)

/-- `AlertSystem.get_triggered_value`. -/
def get_triggered_value (alert : Alert) : Option PyVal :=
  match alert.type_ with
  | some "price" => some (PyVal.num (alert.last_price.getD 0))
  | some "volume" => some (PyVal.num (alert.avg_volume.getD 0))
  | some "change" => some (PyVal.num (alert.last_change.getD 0))
  | some "sentiment" => some (PyVal.num (alert.last_sentiment.getD 50))
  | _ => none

/-- One record of `alert_log.json`. -/
structure LogEntry where
  timestamp : Nat
  alert_id : String
  symbol : Option String
  type_ : Option String
  condition : Option String
  value : Option PyVal
  triggered_value : Option PyVal
deriving DecidableEq, Repr

/-- Python's `l[-n:]`: the last `n` elements. -/
def lastN (n : Nat) (l : List LogEntry) : List LogEntry :=
  l.drop (l.length - n)

/-- `AlertSystem.log_triggered_alerts`: append one entry per triggered alert
to the log read from disk, then keep only the last 1000 entries. -/
def log_triggered_alerts (now : Nat) (alerts : List Alert)
    (log_data : List LogEntry) : List LogEntry :=
  lastN 1000 (log_data ++ alerts.map fun alert =>
    { timestamp := now
      alert_id := alert.id
      symbol := alert.symbol
      type_ := alert.type_
      condition := alert.condition
      value := alert.value
      triggered_value := get_triggered_value alert })

/-- The whole persistent state of one `AlertSystem`: the in-memory list
`self.alerts`, the contents of `alerts.json` (`saved`, rewritten by
`save_alerts`), and the contents of `alert_log.json`. -/
structure AlertSystemState where
  alerts : List Alert
  saved : List Alert
  alert_log : List LogEntry
deriving DecidableEq, Repr

/-- The caller-supplied `alert_data` dict spread into the new alert by
`create_alert` (`{type, symbol?, condition, value}` per the creation payload
shape). -/
structure AlertPayload where
  type_ : Option String := none
  symbol : Option String := none
  condition : Option String := none
  value : Option PyVal := none
deriving DecidableEq, Repr

/-- The id string `f"alert_{int(time.time())}_{len(self.alerts)}"`. -/
def mkAlertId (t n : Nat) : String :=
  "alert_" ++ toString t ++ "_" ++ toString n

/-- `AlertSystem.create_alert`: builds the record, appends it, saves, and
returns the id.  There is no validation of any kind. -/
def create_alert (t : Nat) (alert_data : AlertPayload) (s : AlertSystemState) :
    String × AlertSystemState :=
  let alert_id := mkAlertId t s.alerts.length
  let alert : Alert :=
    { id := alert_id
      created := t
      active := true
      triggered := false
      triggered_at := none
      type_ := alert_data.type_
      symbol := alert_data.symbol
      condition := alert_data.condition
      value := alert_data.value
      last_price := none
      avg_volume := none
      last_change := none
      last_sentiment := none }
  let alerts := s.alerts ++ [alert]
  (alert_id, { s with alerts := alerts, saved := alerts })

/-- `AlertSystem.delete_alert`: filter by id; save (and return `True`) only
when the count shrank. -/
def delete_alert (alert_id : String) (s : AlertSystemState) :
    Bool × AlertSystemState :=
  let original_count := s.alerts.length
  let alerts := s.alerts.filter fun a => a.id != alert_id
  if alerts.length < original_count then
    (true, { s with alerts := alerts, saved := alerts })
  else
    (false, { s with alerts := alerts })

/-- The loop body of `AlertSystem.check_alerts` over `self.alerts`: returns
the updated alert list and the `triggered_alerts` list (in iteration order).
`none` models an exception escaping from an evaluator. -/
def check_alerts_list (now : Nat) (market_data : MarketData)
    (sentiment : Option SentimentData) : List Alert → Option (List Alert × List Alert)
  | [] => some ([], [])
  | alert :: rest =>
    if !alert.active || alert.triggered then
      (check_alerts_list now market_data sentiment rest).map fun p =>
        (alert :: p.1, p.2)
    else
      (evaluate_alert alert market_data sentiment).bind fun q =>
        let fired := q.1
        let a2 := if fired then { q.2 with triggered := true, triggered_at := some now }
                  else q.2
        (check_alerts_list now market_data sentiment rest).map fun p =>
          (a2 :: p.1, if fired then a2 :: p.2 else p.2)

/-- `AlertSystem.check_alerts`: run the loop; if at least one alert fired,
save the alerts file and append to the audit log; return the fired list and
the new state. -/
def check_alerts (now : Nat) (market_data : MarketData)
    (sentiment : Option SentimentData) (s : AlertSystemState) :
    Option (List Alert × AlertSystemState) :=
  (check_alerts_list now market_data sentiment s.alerts).map fun p =>
    let alerts := p.1
    let triggered_alerts := p.2
    if triggered_alerts.isEmpty then
      (triggered_alerts, { s with alerts := alerts })
    else
      (triggered_alerts,
        { alerts := alerts
          saved := alerts
          alert_log := log_triggered_alerts now triggered_alerts s.alert_log })

/-! ### Concrete instances used by the claim theorems below -/

/-- A price `crosses_above` alert at threshold 100 with no previous
observation. -/
def c5Alert : Alert :=
  { id := "alert_0_0", created := 0, active := true, triggered := false,
    triggered_at := none, type_ := some "price", symbol := some "BTC",
    condition := some "crosses_above", value := some (PyVal.num 100),
    last_price := none, avg_volume := none, last_change := none,
    last_sentiment := none }

/-- A one-coin snapshot giving BTC the price `q`. -/
def c5Md (q : ℚ) : MarketData :=
  ⟨[{ symbol := "BTC", price := some q, volume24h := none, change24h := none }]⟩

/-- A store holding just `c5Alert`, fully persisted. -/
def c5State : AlertSystemState := ⟨[c5Alert], [c5Alert], []⟩

/-- The same crossing alert as created at time 10 (id `alert_10_0`). -/
def c1Alert : Alert :=
  { id := "alert_10_0", created := 10, active := true, triggered := false,
    triggered_at := none, type_ := some "price", symbol := some "BTC",
    condition := some "crosses_above", value := some (PyVal.num 100),
    last_price := none, avg_volume := none, last_change := none,
    last_sentiment := none }

/-- Snapshot with BTC at 90, below the 100 threshold. -/
def c1Md : MarketData :=
  ⟨[{ symbol := "BTC", price := some 90, volume24h := none, change24h := none }]⟩

/-- A store holding just `c1Alert`, fully persisted (as right after create). -/
def c1State : AlertSystemState := ⟨[c1Alert], [c1Alert], []⟩

/-- A creation payload whose threshold is the non-numeric string "abc". -/
def c2Payload : AlertPayload :=
  { type_ := some "price", symbol := some "BTC", condition := some "above",
    value := some (PyVal.nonNumeric "abc") }

/-- The store obtained by creating an alert from `c2Payload` on an empty
store. -/
def c2State : AlertSystemState := (create_alert 5 c2Payload ⟨[], [], []⟩).2

/-- An alert already in the terminal `triggered` state. -/
def c3Alert : Alert :=
  { id := "alert_0_0", created := 0, active := true, triggered := true,
    triggered_at := some 1, type_ := some "price", symbol := some "BTC",
    condition := some "above", value := some (PyVal.num 10),
    last_price := none, avg_volume := none, last_change := none,
    last_sentiment := none }

/-- A store holding just the triggered `c3Alert`. -/
def c3State : AlertSystemState := ⟨[c3Alert], [c3Alert], []⟩

/-- An ordinary valid creation payload. -/
def c4Payload : AlertPayload :=
  { type_ := some "price", symbol := some "BTC", condition := some "above",
    value := some (PyVal.num 1) }

/-- A price `above` alert whose own symbol is stored lowercase. -/
def c6Alert : Alert :=
  { id := "alert_0_0", created := 0, active := true, triggered := false,
    triggered_at := none, type_ := some "price", symbol := some "btc",
    condition := some "above", value := some (PyVal.num 10),
    last_price := none, avg_volume := none, last_change := none,
    last_sentiment := none }

/-- The same alert with its symbol written uppercase. -/
def c6CexAlert : Alert := { c6Alert with symbol := some "BTC" }

/-- A sentiment alert with `condition=above`, `threshold=60`. -/
def c7Alert60 : Alert :=
  { id := "alert_0_0", created := 0, active := true, triggered := false,
    triggered_at := none, type_ := some "sentiment", symbol := none,
    condition := some "above", value := some (PyVal.num 60),
    last_price := none, avg_volume := none, last_change := none,
    last_sentiment := none }

/-- The same sentiment alert with `threshold=40`. -/
def c7Alert40 : Alert := { c7Alert60 with value := some (PyVal.num 40) }

/-- A volume alert with `runningAverage=1000` and `threshold=200` (%). -/
def c8Alert : Alert :=
  { id := "alert_0_0", created := 0, active := true, triggered := false,
    triggered_at := none, type_ := some "volume", symbol := some "BTC",
    condition := none, value := some (PyVal.num 200),
    last_price := none, avg_volume := some 1000, last_change := none,
    last_sentiment := none }

/-- Snapshot with BTC 24h volume 2500. -/
def c8Md : MarketData :=
  ⟨[{ symbol := "BTC", price := none, volume24h := some 2500, change24h := none }]⟩

/-- A change alert with `condition=increase`, `threshold=5`. -/
def c9Alert : Alert :=
  { id := "alert_0_0", created := 0, active := true, triggered := false,
    triggered_at := none, type_ := some "change", symbol := some "BTC",
    condition := some "increase", value := some (PyVal.num 5),
    last_price := none, avg_volume := none, last_change := none,
    last_sentiment := none }

/-- Snapshot with BTC 24h change of 10 percent. -/
def c9Md : MarketData :=
  ⟨[{ symbol := "BTC", price := none, volume24h := none, change24h := some 10 }]⟩

/-! ### Helper lemmas -/

/-- Through the `check_alerts` loop, an alert whose `triggered` flag is
already set is skipped and copied through unchanged, position by position. -/
theorem check_alerts_list_triggered_fixed (now : Nat) (md : MarketData)
    (sent : Option SentimentData) :
    ∀ (l l' f : List Alert), check_alerts_list now md sent l = some (l', f) →
      ∀ (i : Nat) (hi : i < l.length) (hi' : i < l'.length),
        (l.get ⟨i, hi⟩).triggered = true → l'.get ⟨i, hi'⟩ = l.get ⟨i, hi⟩ := by
  intro l
  induction l with
  | nil =>
    intro l' f h i hi
    simp at hi
  | cons a rest ih =>
    intro l' f h i hi hi' htrig
    rw [check_alerts_list] at h
    by_cases hskip : (!a.active || a.triggered) = true
    · rw [if_pos hskip] at h
      rcases Option.map_eq_some'.mp h with ⟨p, hrest, hpl⟩
      have hl' : l' = a :: p.1 := by
        have := congrArg Prod.fst hpl
        simpa using this.symm
      subst hl'
      cases i with
      | zero => rfl
      | succ j =>
        exact ih p.1 p.2 (by rw [hrest]) j (by simpa using hi) (by simpa using hi')
          (by simpa using htrig)
    · rw [if_neg hskip] at h
      rcases Option.bind_eq_some.mp h with ⟨q, heval, hq⟩
      rcases Option.map_eq_some'.mp hq with ⟨p, hrest, hpl⟩
      cases i with
      | zero =>
        simp only [List.get] at htrig
        simp [htrig] at hskip
      | succ j =>
        have hl' : l' = (if q.1 then { q.2 with triggered := true, triggered_at := some now }
            else q.2) :: p.1 := by
          have := congrArg Prod.fst hpl
          simpa using this.symm
        subst hl'
        exact ih p.1 p.2 (by rw [hrest]) j (by simpa using hi) (by simpa using hi')
          (by simpa using htrig)

/-- The fired flag of a price evaluation depends on the alert's symbol only
through its uppercased form. -/
theorem evaluate_price_alert_fired_symbol_congr (a : Alert) (md : MarketData) (s1 : String)
    (h : pyUpper s1 = pyUpper (a.symbol.getD "")) :
    (evaluate_price_alert { a with symbol := some s1 } md).map Prod.fst =
      (evaluate_price_alert a md).map Prod.fst := by
  unfold evaluate_price_alert
  simp [h]
  cases hpf : pyFloat (a.value.getD (PyVal.num 0)) with
  | none => rfl
  | some th =>
    simp only [Option.some_bind]
    cases hf : List.find? (fun c => c.symbol == pyUpper (a.symbol.getD "")) md.trending_coins with
    | none => simp
    | some coin =>
      split_ifs <;> simp

/-- The fired flag of a volume evaluation depends on the alert's symbol only
through its uppercased form. -/
theorem evaluate_volume_alert_fired_symbol_congr (a : Alert) (md : MarketData) (s1 : String)
    (h : pyUpper s1 = pyUpper (a.symbol.getD "")) :
    (evaluate_volume_alert { a with symbol := some s1 } md).map Prod.fst =
      (evaluate_volume_alert a md).map Prod.fst := by
  unfold evaluate_volume_alert
  simp [h]
  cases hpf : pyFloat (a.value.getD (PyVal.num 0)) with
  | none => rfl
  | some th =>
    simp only [Option.some_bind]
    cases hf : List.find? (fun c => c.symbol == pyUpper (a.symbol.getD "")) md.trending_coins with
    | none => simp
    | some coin =>
      simp only [Option.map_some]
      split_ifs <;> simp

/-- The fired flag of a change evaluation depends on the alert's symbol only
through its uppercased form. -/
theorem evaluate_change_alert_fired_symbol_congr (a : Alert) (md : MarketData) (s1 : String)
    (h : pyUpper s1 = pyUpper (a.symbol.getD "")) :
    (evaluate_change_alert { a with symbol := some s1 } md).map Prod.fst =
      (evaluate_change_alert a md).map Prod.fst := by
  unfold evaluate_change_alert
  simp [h]
  cases hpf : pyFloat (a.value.getD (PyVal.num 0)) with
  | none => rfl
  | some th =>
    simp only [Option.some_bind]
    cases hf : List.find? (fun c => c.symbol == pyUpper (a.symbol.getD "")) md.trending_coins with
    | none => simp
    | some coin =>
      simp only [Option.map_some]
      split_ifs <;> simp

/-- When the alert's symbol has no match in the snapshot, a price alert
returns not-fired with the alert unchanged (given a numeric threshold). -/
theorem evaluate_price_alert_missing_symbol (a : Alert) (md : MarketData) (th : ℚ)
    (hpf : pyFloat (a.value.getD (PyVal.num 0)) = some th)
    (hf : md.trending_coins.find? (fun c => c.symbol == pyUpper (a.symbol.getD "")) = none) :
    evaluate_price_alert a md = some (false, a) := by
  unfold evaluate_price_alert
  rw [hpf]
  simp [hf]

/-- When the alert's symbol has no match in the snapshot, a volume alert
returns not-fired with the alert unchanged (given a numeric threshold). -/
theorem evaluate_volume_alert_missing_symbol (a : Alert) (md : MarketData) (th : ℚ)
    (hpf : pyFloat (a.value.getD (PyVal.num 0)) = some th)
    (hf : md.trending_coins.find? (fun c => c.symbol == pyUpper (a.symbol.getD "")) = none) :
    evaluate_volume_alert a md = some (false, a) := by
  unfold evaluate_volume_alert
  rw [hpf]
  simp [hf]

/-- When the alert's symbol has no match in the snapshot, a change alert
returns not-fired with the alert unchanged (given a numeric threshold). -/
theorem evaluate_change_alert_missing_symbol (a : Alert) (md : MarketData) (th : ℚ)
    (hpf : pyFloat (a.value.getD (PyVal.num 0)) = some th)
    (hf : md.trending_coins.find? (fun c => c.symbol == pyUpper (a.symbol.getD "")) = none) :
    evaluate_change_alert a md = some (false, a) := by
  unfold evaluate_change_alert
  rw [hpf]
  simp [hf]

/-! ### Claim theorems -/

/-- Claim C1 (counterexample): a cycle in which no alert fires but the
crossing alert's `last_price` carry-state changed (from `none` to `some 90`)
returns a state whose persisted `saved` list still holds the old record, so
the store is NOT persisted before the cycle returns. -/
theorem c1_cex :
    check_alerts 11 c1Md none c1State =
      some ([], ⟨[{ c1Alert with last_price := some 90 }], [c1Alert], []⟩) ∧
    ({ c1Alert with last_price := some 90 }) ≠ c1Alert := by
  constructor
  · decide
  · decide

/-- Claim C1 (amended): in any evaluation cycle whose fired set is empty,
`save_alerts` is not called at all: the persisted alert file and the audit
log are left exactly as they were, even when carry-state changed in the
in-memory list. -/
theorem check_alerts_no_fire_no_save (now : Nat) (md : MarketData)
    (sent : Option SentimentData) (s : AlertSystemState)
    (fired : List Alert) (s2 : AlertSystemState)
    (h : check_alerts now md sent s = some (fired, s2)) (hemp : fired = []) :
    s2.saved = s.saved ∧ s2.alert_log = s.alert_log := by
  rcases Option.map_eq_some'.mp h with ⟨p, hlist, hpl⟩
  by_cases he : p.2.isEmpty
  · simp [he] at hpl
    rw [← hpl.2]
    exact ⟨rfl, rfl⟩
  · simp [he] at hpl
    rw [hemp] at hpl
    rw [hpl.1] at he
    simp at he

/-- Claim C1 (witness): the amended theorem applied to the concrete no-fire
cycle of `c1_cex`. -/
theorem c1_witness :
    check_alerts 11 c1Md none c1State =
      some ([], ⟨[{ c1Alert with last_price := some 90 }], [c1Alert], []⟩) ∧
    (⟨[{ c1Alert with last_price := some 90 }], [c1Alert], []⟩ : AlertSystemState).saved
        = c1State.saved ∧
    (⟨[{ c1Alert with last_price := some 90 }], [c1Alert], []⟩ : AlertSystemState).alert_log
        = c1State.alert_log :=
  ⟨by decide,
    check_alerts_no_fire_no_save 11 c1Md none c1State []
      ⟨[{ c1Alert with last_price := some 90 }], [c1Alert], []⟩ (by decide) rfl⟩

/-- Claim C2 (counterexample): creating an alert with the non-numeric
threshold "abc" succeeds and stores the alert (no validation error), and
evaluating that stored alert then raises the conversion error (`none`). -/
theorem c2_cex :
    c2State.alerts.length = 1 ∧
    (c2State.alerts.map fun a => evaluate_alert a ⟨[]⟩ none) = [none] := by
  constructor
  · decide
  · decide

/-- Claim C2 (amended): `create_alert` performs no validation and always
appends an alert; a stored non-numeric threshold instead raises at evaluation
time for price, volume and change alerts, while the sentiment evaluator
swallows the conversion error and reports not-fired. -/
theorem create_never_validates_eval_raises :
    (∀ (t : Nat) (p : AlertPayload) (s : AlertSystemState),
      ((create_alert t p s).2).alerts.length = s.alerts.length + 1) ∧
    (∀ (a : Alert) (md : MarketData) (sent : Option SentimentData) (str : String),
      a.value = some (PyVal.nonNumeric str) →
      (a.type_ = some "price" ∨ a.type_ = some "volume" ∨ a.type_ = some "change") →
      evaluate_alert a md sent = none) ∧
    (∀ (a : Alert) (sent : Option SentimentData) (md : MarketData) (str : String),
      a.value = some (PyVal.nonNumeric str) → a.type_ = some "sentiment" →
      evaluate_alert a md sent = some (false, a)) := by
  refine ⟨fun t p s => by simp [create_alert], ?_, ?_⟩
  · intro a md sent str hv ht
    rcases ht with ht | ht | ht <;>
      simp [evaluate_alert, ht, evaluate_price_alert, evaluate_volume_alert,
        evaluate_change_alert, hv, pyFloat]
  · intro a sent md str hv ht
    cases sent <;>
      simp [evaluate_alert, ht, evaluate_sentiment_alert, hv, pyFloat]

/-- Claim C2 (witness): the amended theorem applied to the concrete "abc"
payload of `c2_cex`. -/
theorem c2_witness :
    ((create_alert 5 c2Payload ⟨[], [], []⟩).2).alerts.length = 1 ∧
    evaluate_alert
      { id := "alert_5_0", created := 5, active := true, triggered := false,
        triggered_at := none, type_ := some "price", symbol := some "BTC",
        condition := some "above", value := some (PyVal.nonNumeric "abc"),
        last_price := none, avg_volume := none, last_change := none,
        last_sentiment := none } ⟨[]⟩ none = none :=
  ⟨(create_never_validates_eval_raises.1 5 c2Payload ⟨[], [], []⟩).trans rfl,
    create_never_validates_eval_raises.2.1 _ ⟨[]⟩ none "abc" rfl (Or.inl rfl)⟩

/-- Claim C3: any alert whose `triggered` flag is already true is skipped by
`check_alerts`: after any evaluation cycle its entire record is unchanged,
position by position. -/
theorem check_alerts_triggered_alert_unchanged (now : Nat) (md : MarketData)
    (sent : Option SentimentData) (s : AlertSystemState)
    (fired : List Alert) (s2 : AlertSystemState)
    (h : check_alerts now md sent s = some (fired, s2))
    (i : Nat) (hi : i < s.alerts.length) (hi' : i < s2.alerts.length)
    (htrig : (s.alerts.get ⟨i, hi⟩).triggered = true) :
    s2.alerts.get ⟨i, hi'⟩ = s.alerts.get ⟨i, hi⟩ := by
  rcases Option.map_eq_some'.mp h with ⟨p, hlist, hpl⟩
  have hs2 : s2.alerts = p.1 := by
    by_cases hemp : p.2.isEmpty <;> simp [hemp] at hpl <;> simp [← hpl.2]
  have hi2 : i < p.1.length := hs2 ▸ hi'
  have hmain := check_alerts_list_triggered_fixed now md sent s.alerts p.1 p.2
    (by rw [hlist]) i hi hi2 htrig
  rw [List.get_of_eq hs2 ⟨i, hi'⟩]
  exact hmain

/-- Claim C3 (witness): the theorem applied to a concrete cycle over a store
holding one already-triggered alert. -/
theorem c3_witness :
    check_alerts 2 (c5Md 90) none c3State = some ([], c3State) ∧
    c3State.alerts.get ⟨0, by decide⟩ = c3State.alerts.get ⟨0, by decide⟩ :=
  ⟨by decide,
    check_alerts_triggered_alert_unchanged 2 (c5Md 90) none c3State [] c3State
      (by decide) 0 (by decide) (by decide) (by decide)⟩

/-- Claim C4 (counterexample): ids ARE reused: create at time 100 on an empty
store, delete that alert, create again at time 100 — the second creation
returns the very same id `alert_100_0`. -/
theorem c4_cex :
    (create_alert 100 c4Payload
        ((delete_alert (create_alert 100 c4Payload ⟨[], [], []⟩).1
          (create_alert 100 c4Payload ⟨[], [], []⟩).2).2)).1 =
      (create_alert 100 c4Payload ⟨[], [], []⟩).1 := by
  decide

/-- Claim C4 (amended): ids are derived from (timestamp, store size): two
back-to-back creations in the same second get distinct ids because the size
grew, but after a deletion a creation at the same timestamp and size reuses
an id — it can even duplicate the id of an alert still in the store. -/
theorem c4_amended_ids :
    ((create_alert 100 c4Payload (create_alert 100 c4Payload ⟨[], [], []⟩).2).1 ≠
      (create_alert 100 c4Payload ⟨[], [], []⟩).1) ∧
    ((create_alert 100 c4Payload
        (delete_alert (create_alert 100 c4Payload ⟨[], [], []⟩).1
          (create_alert 100 c4Payload (create_alert 100 c4Payload ⟨[], [], []⟩).2).2).2).1 =
      (create_alert 100 c4Payload (create_alert 100 c4Payload ⟨[], [], []⟩).2).1) ∧
    ((create_alert 100 c4Payload
        (delete_alert (create_alert 100 c4Payload ⟨[], [], []⟩).1
          (create_alert 100 c4Payload (create_alert 100 c4Payload ⟨[], [], []⟩).2).2).2).2.alerts.map
        (fun a => a.id) = ["alert_100_1", "alert_100_1"]) := by
  refine ⟨by decide, by decide, by decide⟩

/-- Claim C5: a `crosses_above` alert at threshold 100 over prices 90, 95,
105 across three cycles does not fire on cycles 1 and 2 and fires on
cycle 3. -/
theorem c5_crossing_three_cycles :
    ((check_alerts 1 (c5Md 90) none c5State).map fun p => p.1.isEmpty) = some true ∧
    (((check_alerts 1 (c5Md 90) none c5State).bind fun p =>
        check_alerts 2 (c5Md 95) none p.2).map fun p => p.1.isEmpty) = some true ∧
    ((((check_alerts 1 (c5Md 90) none c5State).bind fun p =>
        check_alerts 2 (c5Md 95) none p.2).bind fun p =>
        check_alerts 3 (c5Md 105) none p.2).map fun p =>
          p.1.map fun a => (a.id, a.triggered)) = some [("alert_0_0", true)] := by
  refine ⟨by decide, by decide, by decide⟩

/-- Claim C6 (counterexample): symbol matching against the snapshot is
case-sensitive on the snapshot side: the same above-10 alert on BTC does not
fire when the snapshot stores the coin as "btc" but fires when it stores
"BTC" — two runs differing only in the case of the snapshot's symbol keys
give different fired results. -/
theorem c6_cex :
    (evaluate_price_alert c6CexAlert
        ⟨[{ symbol := "btc", price := some 100, volume24h := none, change24h := none }]⟩).map
        Prod.fst = some false ∧
    (evaluate_price_alert c6CexAlert
        ⟨[{ symbol := "BTC", price := some 100, volume24h := none, change24h := none }]⟩).map
        Prod.fst = some true := ⟨by decide, by decide⟩

/-- Claim C6 (amended): only the alert's own symbol is normalized to
uppercase: for price, volume and change alerts, two runs differing only in
the case of the alert's symbol give the same fired result, and when no
snapshot coin matches the uppercased symbol (and the threshold is numeric)
the evaluator returns fired=false with the alert unmutated. -/
theorem c6_symbol_lookup_alert_side_only :
    (∀ (a : Alert) (md : MarketData) (s1 : String),
      pyUpper s1 = pyUpper (a.symbol.getD "") →
      ((evaluate_price_alert { a with symbol := some s1 } md).map Prod.fst =
          (evaluate_price_alert a md).map Prod.fst) ∧
      ((evaluate_volume_alert { a with symbol := some s1 } md).map Prod.fst =
          (evaluate_volume_alert a md).map Prod.fst) ∧
      ((evaluate_change_alert { a with symbol := some s1 } md).map Prod.fst =
          (evaluate_change_alert a md).map Prod.fst)) ∧
    (∀ (a : Alert) (md : MarketData) (th : ℚ),
      pyFloat (a.value.getD (PyVal.num 0)) = some th →
      md.trending_coins.find? (fun c => c.symbol == pyUpper (a.symbol.getD "")) = none →
      evaluate_price_alert a md = some (false, a) ∧
      evaluate_volume_alert a md = some (false, a) ∧
      evaluate_change_alert a md = some (false, a)) :=
  ⟨fun a md s1 h =>
    ⟨evaluate_price_alert_fired_symbol_congr a md s1 h,
      evaluate_volume_alert_fired_symbol_congr a md s1 h,
      evaluate_change_alert_fired_symbol_congr a md s1 h⟩,
    fun a md th hpf hf =>
    ⟨evaluate_price_alert_missing_symbol a md th hpf hf,
      evaluate_volume_alert_missing_symbol a md th hpf hf,
      evaluate_change_alert_missing_symbol a md th hpf hf⟩⟩

/-- Claim C6 (witness): the amended theorem applied to a concrete alert with
symbol "btc", the variant spelling "BtC", and an empty snapshot. -/
theorem c6_witness :
    pyUpper "BtC" = pyUpper ((c6Alert.symbol).getD "") ∧
    (evaluate_price_alert { c6Alert with symbol := some "BtC" } ⟨[]⟩).map Prod.fst =
      (evaluate_price_alert c6Alert ⟨[]⟩).map Prod.fst ∧
    evaluate_price_alert c6Alert ⟨[]⟩ = some (false, c6Alert) :=
  ⟨by decide, (c6_symbol_lookup_alert_side_only.1 c6Alert ⟨[]⟩ "BtC" (by decide)).1,
    (c6_symbol_lookup_alert_side_only.2 c6Alert ⟨[]⟩ 10 (by decide) (by decide)).1⟩

/-- Claim C7 (counterexample): when `sentiment.json` exists but the
`overall_sentiment` value is absent, the code substitutes 50, so an
above-40 sentiment alert FIRES even though the sentiment value is missing. -/
theorem c7_cex :
    evaluate_sentiment_alert c7Alert40 (some ⟨none⟩) = (true, c7Alert40) := by decide

/-- Claim C7 (amended): an above-60 sentiment alert fires at observed
sentiment 75 and not at 40; when the sentiment file is absent no sentiment
alert ever fires (and nothing is raised); when the file exists but the value
is absent it defaults to 50, which does not fire an above-60 alert (but can
fire lower thresholds, see the counterexample). -/
theorem c7_sentiment_behavior :
    (evaluate_sentiment_alert c7Alert60 (some ⟨some 75⟩) = (true, c7Alert60)) ∧
    (evaluate_sentiment_alert c7Alert60 (some ⟨some 40⟩) = (false, c7Alert60)) ∧
    (∀ a : Alert, evaluate_sentiment_alert a none = (false, a)) ∧
    (evaluate_sentiment_alert c7Alert60 (some ⟨none⟩) = (false, c7Alert60)) :=
  ⟨by decide, by decide, fun a => rfl, by decide⟩

/-- Claim C7 (witness): the file-absent clause of the theorem applied to the
concrete above-60 alert. -/
theorem c7_witness :
    evaluate_sentiment_alert c7Alert60 none = (false, c7Alert60) :=
  c7_sentiment_behavior.2.2.1 c7Alert60

/-- Claim C8: with `runningAverage=1000`, `threshold=200` and observed volume
2500 the alert fires and the new average is exactly 1450; when no average is
stored the evaluation behaves as if seeded with the current volume; and the
stored average changes only on cycles where the alert fires. -/
theorem c8_volume_spike :
    (evaluate_volume_alert c8Alert c8Md =
        some (true, { c8Alert with avg_volume := some 1450 })) ∧
    (∀ (a : Alert) (md : MarketData) (c : Coin),
      a.avg_volume = none →
      md.trending_coins.find? (fun x => x.symbol == pyUpper (a.symbol.getD "")) = some c →
      (evaluate_volume_alert a md).map Prod.fst =
        (evaluate_volume_alert { a with avg_volume := some (c.volume24h.getD 0) } md).map
          Prod.fst) ∧
    (∀ (a a2 : Alert) (md : MarketData),
      evaluate_volume_alert a md = some (false, a2) → a2 = a) := by
  refine ⟨?_, ?_, ?_⟩
  · have h2 : ((1000:ℚ) * (7 / 10) + 2500 * (3 / 10)) = 1450 := by norm_num
    simp [evaluate_volume_alert, pyFloat, c8Alert, c8Md, pyUpper, h2]
    norm_num
  · intro a md c havg hf
    unfold evaluate_volume_alert
    simp [havg, hf]
    cases hpf : pyFloat (a.value.getD (PyVal.num 0)) with
    | none => rfl
    | some th =>
      simp only [Option.some_bind]
      split_ifs <;> simp
  · intro a a2 md h
    unfold evaluate_volume_alert at h
    cases hpf : pyFloat (a.value.getD (PyVal.num 0)) with
    | none => rw [hpf] at h; simp at h
    | some th =>
      rw [hpf] at h
      simp only [Option.some_bind] at h
      cases hf : md.trending_coins.find? (fun x => x.symbol == pyUpper (a.symbol.getD "")) with
      | none => rw [hf] at h; simp at h; exact h.symm
      | some coin =>
        rw [hf] at h
        simp at h
        split_ifs at h <;> simp_all

/-- Claim C8 (witness): the only-on-fire clause applied to a concrete
non-firing volume evaluation (threshold 300, seeded average). -/
theorem c8_witness :
    c8Alert.avg_volume = some 1000 ∧
    evaluate_volume_alert
        { c8Alert with value := some (PyVal.num 300), avg_volume := none }
        c8Md = some (false, { c8Alert with value := some (PyVal.num 300), avg_volume := none }) ∧
    ({ c8Alert with value := some (PyVal.num 300), avg_volume := none } : Alert) =
      { c8Alert with value := some (PyVal.num 300), avg_volume := none } :=
  ⟨by decide,
    by
      simp [evaluate_volume_alert, pyFloat, c8Alert, c8Md, pyUpper]
      norm_num,
    c8_volume_spike.2.2 _ _ c8Md (by
      simp [evaluate_volume_alert, pyFloat, c8Alert, c8Md, pyUpper]
      norm_num)⟩

/-- Claim C9: the audit entry written for a fired change alert carries
`triggered_value = 0` (the default for the never-written `last_change` key)
even though the observed 24h change that caused the fire was 10 — the logged
value is not the observed metric value. -/
theorem c9_logged_value_is_not_observed_value :
    ((check_alerts 7 c9Md none ⟨[c9Alert], [c9Alert], []⟩).map fun p =>
        (p.1.length, p.2.alert_log.map fun e => e.triggered_value)) =
      some (1, [some (PyVal.num 0)]) ∧
    (c9Md.trending_coins.map fun c => c.change24h) = [some 10] ∧
    (PyVal.num 0 : PyVal) ≠ PyVal.num 10 :=
  ⟨by decide, by decide, by decide⟩

/-- Claim C10: a crossing price alert with no stored `last_price` can never
fire on its first evaluation with the symbol present: the previous price
defaults to the current one, the strict crossing test is unsatisfiable, and
the evaluation records the current price as the new `last_price`. -/
theorem first_crossing_observation_never_fires (a : Alert) (md : MarketData)
    (c : Coin) (th : ℚ)
    (hc : a.condition = some "crosses_above" ∨ a.condition = some "crosses_below")
    (hlp : a.last_price = none)
    (hpf : pyFloat (a.value.getD (PyVal.num 0)) = some th)
    (hf : md.trending_coins.find? (fun x => x.symbol == pyUpper (a.symbol.getD "")) = some c) :
    evaluate_price_alert a md =
      some (false, { a with last_price := some (c.price.getD 0) }) := by
  unfold evaluate_price_alert
  rw [hpf]
  rcases hc with hc | hc <;> simp [hf, hc, hlp]

/-- Claim C10 (witness): the theorem applied to the concrete crossing alert
of claim C5 on its first cycle (price 90). -/
theorem c10_witness :
    (c5Alert.condition = some "crosses_above" ∨ c5Alert.condition = some "crosses_below") ∧
    c5Alert.last_price = none ∧
    pyFloat (c5Alert.value.getD (PyVal.num 0)) = some 100 ∧
    (c5Md 90).trending_coins.find?
      (fun x => x.symbol == pyUpper (c5Alert.symbol.getD "")) =
        some { symbol := "BTC", price := some 90, volume24h := none, change24h := none } ∧
    evaluate_price_alert c5Alert (c5Md 90) =
      some (false, { c5Alert with last_price := some 90 }) :=
  ⟨Or.inl rfl, rfl, rfl, by decide,
    first_crossing_observation_never_fires c5Alert (c5Md 90)
      { symbol := "BTC", price := some 90, volume24h := none, change24h := none } 100
      (Or.inl rfl) rfl rfl (by decide)⟩
